import Mathlib

/-!
Shallow embedding of the MFRC522 driver and its RTOS acquisition task
(RC522.c, rc522_rtos_task.c, oled_rtos_task.c and the headers under
Core/Inc), together with theorems settling the specification claims.

The chip is modelled as an oracle (`MFRC522_Chip`): each field records the
byte(s) the chip returns for the corresponding register reads performed by
`MFRC522_ToCard`. Register writes configure the chip and are absorbed into
the oracle; the bytes a call pushes into the FIFO are recorded in the
result so that payload claims can be stated.
-/

/-- Protocol outcome codes. Modelled from the spec: RC522.h, which defines the
numeric values of MI_OK, MI_NOTAGERR and MI_ERR, is not under src/; the spec's
ProtocolOutcome is the enumeration Ok / NoCardDetected / Error (the
budget-exhaustion path of the code returns the same MI_ERR value callers treat
as a hardware error), and the code only ever compares these codes for
identity, so they are embedded as an enumeration. -/
inductive Status where
  | MI_OK
  | MI_NOTAGERR
  | MI_ERR
deriving DecidableEq, Repr

/-- Command kinds dispatched on by MFRC522_ToCard. Modelled from the spec:
RC522.h, which defines the numeric PCD command values, is not under src/; the
code dispatches on identity with PCD_AUTHENT and PCD_TRANSCEIVE, with a
default case for every other command word, so commands are embedded as an
enumeration with those three cases. -/
inductive Cmd where
  | PCD_AUTHENT
  | PCD_TRANSCEIVE
  | other
deriving DecidableEq, Repr

/-- Interrupt-enable mask chosen by the switch at RC522.c lines 198-214. -/
def irqEn : Cmd → Nat
  | Cmd.PCD_AUTHENT => 0x12
  | Cmd.PCD_TRANSCEIVE => 0x77
  | Cmd.other => 0x00

/-- Awaited completion mask chosen by the switch at RC522.c lines 198-214. -/
def waitIRq : Cmd → Nat
  | Cmd.PCD_AUTHENT => 0x10
  | Cmd.PCD_TRANSCEIVE => 0x30
  | Cmd.other => 0x00

/-- FIFO drain ceiling. Modelled from the spec: RC522.h defining MAX_LEN is
not under src/; the spec's block access reads 16-byte blocks and the driver's
fixed receive buffers are 16 bytes, the standard value of this constant. -/
def MAX_LEN : Nat := 16

/-- Request mode byte for idle-state request. Modelled from the spec: RC522.h
defining PICC_REQIDL is not under src/; the task passes it as the single
request payload byte, and no claim depends on its numeric value (standard
ISO14443A REQA value). -/
def PICC_REQIDL : Nat := 0x26

/-- Anticollision command byte. Modelled from the spec: RC522.h defining
PICC_ANTICOLL is not under src/; MFRC522_Anticoll sends it as the first of the
fixed 2-byte anticollision frame, and no claim depends on its numeric value
(standard ISO14443A cascade-level-1 select code). -/
def PICC_ANTICOLL : Nat := 0x93

/-- Status value for successful card detection (rc522_rtos_task.h). -/
def RC522_STATUS_SUCCESS : Nat := 1

/-- Status value for unsuccessful card detection (rc522_rtos_task.h). -/
def RC522_STATUS_UNSUCCESSFUL : Nat := 0

/-- Message queue size shared by the RC522 and OLED tasks
(rc522_rtos_task.h / oled_rtos_task.h). -/
def RC522_QUEUE_SIZE : Nat := 3

/-- Oracle for the chip's responses during one MFRC522_ToCard call:
commIrq k is the byte returned by the k-th poll of CommIrqReg, errorReg the
byte read from ErrorReg, fifoLevel the byte read from FIFOLevelReg,
controlReg the byte read from ControlReg, and fifoData j the j-th byte
drained from FIFODataReg. -/
structure MFRC522_Chip where
  commIrq : Nat → Nat
  errorReg : Nat
  fifoLevel : Nat
  controlReg : Nat
  fifoData : Nat → Nat

/-- The polling do-while loop of MFRC522_ToCard (RC522.c lines 236-244):
each iteration reads CommIrqReg and decrements the budget; the loop continues
while the decremented budget is nonzero, the timer-expiry bit (0x01) is clear
and the awaited completion mask is clear. Returns the final budget counter
and the last byte read. The budget-0 entry case never arises from the actual
initial budget 2000. -/
def pollLoop (poll : Nat → Nat) (w : Nat) : Nat → Nat → Nat × Nat
  | _, 0 => (0, 0)
  | k, i + 1 =>
    if i ≠ 0 ∧ poll k &&& 0x01 = 0 ∧ poll k &&& w = 0 then
      pollLoop poll w (k + 1) i
    else
      (i, poll k)

/-- Result of one MFRC522_ToCard call: the returned status, the value stored
through the backLen out-parameter (none when the code never writes it), the
bytes drained from the FIFO into the caller's buffer, and the payload bytes
the call wrote into the FIFO before triggering the command. -/
structure ToCardResult where
  status : Status
  backLen : Option Nat
  backData : List Nat
  fifoWritten : List Nat
deriving DecidableEq, Repr

/-- MFRC522_ToCard (RC522.c lines 189-298). The interrupt configuration, FIFO
flush and command trigger are register writes absorbed into the chip oracle;
the function's observable behaviour is: poll CommIrqReg at most 2000 times,
then, with budget remaining and no error-status bit of 0x1B set, report
MI_NOTAGERR when the last poll byte, the irqEn mask and 0x01 intersect
(MI_OK otherwise), and for PCD_TRANSCEIVE compute the received bit count from
FIFOLevelReg and ControlReg (the byte arithmetic (n-1)*8 is performed in C int
arithmetic and stored into a 32-bit unsigned out-parameter, hence the emod),
clamp the drain count to at least 1 and at most MAX_LEN, and drain that many
FIFO bytes. All other paths return MI_ERR and leave backLen unwritten. -/
def MFRC522_ToCard (chip : MFRC522_Chip) (command : Cmd) (sendData : List Nat) : ToCardResult :=
  let p := pollLoop chip.commIrq (waitIRq command) 0 2000
  if p.1 ≠ 0 then
    if chip.errorReg &&& 0x1B = 0 then
      let st := if p.2 &&& irqEn command &&& 0x01 ≠ 0 then Status.MI_NOTAGERR else Status.MI_OK
      if command = Cmd.PCD_TRANSCEIVE then
        let fifoN := chip.fifoLevel
        let lastBits := chip.controlReg &&& 0x07
        let bl : Nat :=
          if lastBits ≠ 0 then
            ((((fifoN : Int) - 1) * 8 + (lastBits : Int)) % (2 ^ 32 : Int)).toNat
          else fifoN * 8
        let n1 := if fifoN = 0 then 1 else fifoN
        let n2 := if MAX_LEN < n1 then MAX_LEN else n1
        { status := st, backLen := some bl,
          backData := (List.range n2).map chip.fifoData, fifoWritten := sendData }
      else
        { status := st, backLen := none, backData := [], fifoWritten := sendData }
    else
      { status := Status.MI_ERR, backLen := none, backData := [], fifoWritten := sendData }
  else
    { status := Status.MI_ERR, backLen := none, backData := [], fifoWritten := sendData }

/-- Overwrite the front of dst with src, as the C drain loop overwrites the
caller's buffer in place: position j holds src[j] when j < src.length and the
original dst[j] otherwise; the result keeps dst's length (writes past the
buffer end are C undefined behaviour and are not modelled). -/
def overlayBytes (dst src : List Nat) : List Nat :=
  src.take dst.length ++ dst.drop src.length

/-- Result of MFRC522_Request: the byte written to BitFramingReg before the
exchange, the returned status, and the final contents of the caller's 2-byte
TagType buffer. -/
structure RequestResult where
  bitFraming : Nat
  status : Status
  tagType : List Nat
deriving DecidableEq, Repr

/-- MFRC522_Request (RC522.c lines 314-330): writes 0x07 to BitFramingReg,
stores reqMode into TagType[0], exchanges that single byte via
MFRC522_ToCard with PCD_TRANSCEIVE, and forces MI_ERR unless the exchange
returned MI_OK and the received bit count is exactly 0x10. backBits is an
uninitialized stack variable, modelled by the garbage value read when
MFRC522_ToCard never writes it; tagType1Init is the caller's initial
TagType[1] byte. -/
def MFRC522_Request (chip : MFRC522_Chip) (reqMode backBitsGarbage tagType1Init : Nat) :
    RequestResult :=
  let r := MFRC522_ToCard chip Cmd.PCD_TRANSCEIVE [reqMode]
  let backBits := r.backLen.getD backBitsGarbage
  { bitFraming := 0x07
    status := if r.status ≠ Status.MI_OK ∨ backBits ≠ 0x10 then Status.MI_ERR else r.status
    tagType := overlayBytes [reqMode, tagType1Init] r.backData }

/-- Result of MFRC522_Anticoll: the byte written to BitFramingReg, the
returned status, and the final contents of the caller's 5-byte serNum
buffer. -/
structure AnticollResult where
  bitFraming : Nat
  status : Status
  serNum : List Nat
deriving DecidableEq, Repr

/-- MFRC522_Anticoll (RC522.c lines 340-367): writes 0x00 to BitFramingReg,
stores the fixed 2-byte frame [PICC_ANTICOLL, 0x20] into the buffer, runs the
transceive exchange in place, and when it returned MI_OK XORs the first four
buffer bytes and forces MI_ERR when the XOR differs from the fifth byte.
g2 g3 g4 are the caller's initial bytes of the buffer positions the fixed
frame does not set. -/
def MFRC522_Anticoll (chip : MFRC522_Chip) (g2 g3 g4 : Nat) : AnticollResult :=
  let r := MFRC522_ToCard chip Cmd.PCD_TRANSCEIVE [PICC_ANTICOLL, 0x20]
  let buf := overlayBytes [PICC_ANTICOLL, 0x20, g2, g3, g4] r.backData
  let serNumCheck := ((buf.getD 0 0 ^^^ buf.getD 1 0) ^^^ buf.getD 2 0) ^^^ buf.getD 3 0
  { bitFraming := 0x00
    status :=
      if r.status = Status.MI_OK then
        if serNumCheck ≠ buf.getD 4 0 then Status.MI_ERR else Status.MI_OK
      else r.status
    serNum := buf }

/-- RC522_Data_t (rc522_rtos_task.h): the CardRecord exchanged on the
queue. -/
structure RC522_Data_t where
  uid : List Nat
  uid_length : Nat
  tagType : List Nat
  status : Nat
deriving DecidableEq, Repr

/-- The result channel created at oled_rtos_task.c line 55: a bounded FIFO of
RC522_Data_t values, oldest first. -/
structure Channel where
  capacity : Nat
  slots : List RC522_Data_t
deriving DecidableEq, Repr

/-- Modelled from the spec: the CMSIS-RTOS v2 osMessageQueuePut implementation
is not under src/ (only its caller at rc522_rtos_task.c line 136 is). Per the
spec's channel contract, a put appends the record in FIFO order when a slot is
free, and with a zero timeout a put on a saturated queue discards the new
record and returns immediately, leaving the pending records untouched; the
task only ever calls it with priority 0 and timeout 0, so the blocking
behaviour of nonzero timeouts is outside the model. Returns the queue after
the call and whether the record was accepted. -/
def osMessageQueuePut (q : Channel) (x : RC522_Data_t) (_msgPrio _timeout : Nat) :
    Channel × Bool :=
  if q.slots.length < q.capacity then ({ q with slots := q.slots ++ [x] }, true)
  else (q, false)

/-- Observable result of one iteration of the RC522_Task while-loop. -/
structure CycleResult where
  rc522_data : RC522_Data_t
  anticollInvoked : Bool
  queueAfter : Channel
  putAccepted : Bool

/-- One acquisition cycle of RC522_Task (rc522_rtos_task.c lines 94-140).
The record is zero-initialized by memset; the request runs with the zeroed
2-byte tagType buffer; MFRC522_Anticoll is then called unconditionally (line
110) on the zeroed uid buffer; uid_length is 4 when anticollision returned
MI_OK and 0 otherwise, then, unless both calls returned MI_OK, the status is
set unsuccessful and uid_length reset to 0; finally the record is put on the
queue with priority 0 and timeout 0. The chip state differs between the two
exchanges, so each takes its own oracle. -/
def RC522_Task_cycle (chipReq chipAnti : MFRC522_Chip) (q : Channel)
    (backBitsGarbage : Nat) : CycleResult :=
  let req := MFRC522_Request chipReq PICC_REQIDL backBitsGarbage 0
  let anti := MFRC522_Anticoll chipAnti 0 0 0
  let uidLen0 := if anti.status = Status.MI_OK then 4 else 0
  let detected := req.status = Status.MI_OK ∧ anti.status = Status.MI_OK
  let record : RC522_Data_t :=
    { uid := overlayBytes (List.replicate 10 0) anti.serNum
      uid_length := if detected then uidLen0 else 0
      tagType := req.tagType
      status := if detected then RC522_STATUS_SUCCESS else RC522_STATUS_UNSUCCESSFUL }
  let qr := osMessageQueuePut q record 0 0
  { rc522_data := record, anticollInvoked := true, queueAfter := qr.1, putAccepted := qr.2 }

/-- Write_MFRC522 (RC522.c lines 43-59), viewed as the bytes it clocks out on
the SPI bus between the chip-select assert and deassert: the address shifted
left with LSb and MSb cleared, then the value byte. -/
def Write_MFRC522 (addr val : Nat) : List Nat :=
  [(addr <<< 1) &&& 0x7E, val]

/-- Read_MFRC522 (RC522.c lines 69-90), viewed as the bytes it clocks out on
the SPI bus between the chip-select assert and deassert: the address shifted
left with LSb cleared and MSb set, then a 0x00 dummy byte. -/
def Read_MFRC522 (addr : Nat) : List Nat :=
  [((addr <<< 1) &&& 0x7E) ||| 0x80, 0x00]

/-- The drain-count bound as claim C7 words it, following the words of the
spec rather than the source (for comparison against the code behaviour): the
number of FIFO bytes drained is the chip-reported count clamped to at least 1
and at most the capacity of the buffer supplied by the caller of the
exchange. -/
def drainCount_specSide (recvCapacity n : Nat) : Nat := min (max n 1) recvCapacity

/-- Concrete chip oracle whose every poll shows only the timer-expiry bit. -/
def chipTimer : MFRC522_Chip :=
  { commIrq := fun _ => 0x01, errorReg := 0, fifoLevel := 0, controlReg := 0,
    fifoData := fun _ => 0 }

/-- Concrete chip oracle that never raises any interrupt flag. -/
def chipZero : MFRC522_Chip :=
  { commIrq := fun _ => 0x00, errorReg := 0, fifoLevel := 0, controlReg := 0,
    fifoData := fun _ => 0 }

/-- Concrete chip oracle reporting 16 FIFO bytes on a completed exchange. -/
def chipFull : MFRC522_Chip :=
  { commIrq := fun _ => 0x30, errorReg := 0, fifoLevel := 16, controlReg := 0,
    fifoData := fun j => j }

theorem pollLoop_exhaust (poll : Nat → Nat) (w : Nat) :
    ∀ i k, (∀ j, j < i → poll (k + j) &&& 0x01 = 0 ∧ poll (k + j) &&& w = 0) →
      (pollLoop poll w k i).1 = 0 := by
  intro i
  induction i with
  | zero => intro k _; rfl
  | succ m ih =>
    intro k h
    have h0 := h 0 (Nat.succ_pos m)
    rw [Nat.add_zero] at h0
    by_cases hm : m = 0
    · subst hm
      simp [pollLoop, h0.1, h0.2]
    · have hstep : pollLoop poll w k (m + 1) = pollLoop poll w (k + 1) m := by
        simp [pollLoop, h0.1, h0.2, hm]
      rw [hstep]
      refine ih (k + 1) (fun j hj => ?_)
      have e : k + 1 + j = k + (j + 1) := by omega
      rw [e]
      exact h (j + 1) (Nat.succ_lt_succ hj)

theorem toCard_fifoWritten (chip : MFRC522_Chip) (command : Cmd) (s : List Nat) :
    (MFRC522_ToCard chip command s).fifoWritten = s := by
  simp only [MFRC522_ToCard, apply_ite ToCardResult.fifoWritten, ite_self]

theorem backLen_isSome_aux (chip : MFRC522_Chip) (command : Cmd) (s : List Nat) :
    (MFRC522_ToCard chip command s).backLen.isSome = true ↔
      (command = Cmd.PCD_TRANSCEIVE ∧
       (pollLoop chip.commIrq (waitIRq command) 0 2000).1 ≠ 0 ∧
       chip.errorReg &&& 0x1B = 0) := by
  cases command with
  | PCD_AUTHENT =>
    by_cases hp : (pollLoop chip.commIrq (waitIRq Cmd.PCD_AUTHENT) 0 2000).1 ≠ 0 <;>
      by_cases he : chip.errorReg &&& 0x1B = 0 <;>
      simp [MFRC522_ToCard, hp, he]
  | PCD_TRANSCEIVE =>
    by_cases hp : (pollLoop chip.commIrq (waitIRq Cmd.PCD_TRANSCEIVE) 0 2000).1 ≠ 0 <;>
      by_cases he : chip.errorReg &&& 0x1B = 0 <;>
      simp [MFRC522_ToCard, hp, he]
  | other =>
    by_cases hp : (pollLoop chip.commIrq (waitIRq Cmd.other) 0 2000).1 ≠ 0 <;>
      by_cases he : chip.errorReg &&& 0x1B = 0 <;>
      simp [MFRC522_ToCard, hp, he]

theorem toCard_transceive_err_or_some (chip : MFRC522_Chip) (s : List Nat) :
    (MFRC522_ToCard chip Cmd.PCD_TRANSCEIVE s).status = Status.MI_ERR ∨
    (MFRC522_ToCard chip Cmd.PCD_TRANSCEIVE s).backLen.isSome = true := by
  by_cases hp : (pollLoop chip.commIrq (waitIRq Cmd.PCD_TRANSCEIVE) 0 2000).1 ≠ 0 <;>
    by_cases he : chip.errorReg &&& 0x1B = 0 <;>
    simp [MFRC522_ToCard, hp, he]

theorem land_hex77_one (x : Nat) : x &&& 0x77 &&& 0x01 = x &&& 0x01 := by
  rw [Nat.and_assoc]
  congr 1

/-- C3: for every command kind and every input, MFRC522_ToCard returns MI_ERR
(the hardware-error code, never success) when all 2000 polls of CommIrqReg
show neither the timer-expiry bit nor the awaited completion bit. -/
theorem C3_timeout_never_ok (chip : MFRC522_Chip) (command : Cmd) (s : List Nat)
    (h : ∀ k, k < 2000 →
        chip.commIrq k &&& 0x01 = 0 ∧ chip.commIrq k &&& waitIRq command = 0) :
    (MFRC522_ToCard chip command s).status = Status.MI_ERR := by
  have hz : (pollLoop chip.commIrq (waitIRq command) 0 2000).1 = 0 := by
    refine pollLoop_exhaust chip.commIrq (waitIRq command) 2000 0 (fun j hj => ?_)
    rw [Nat.zero_add]
    exact h j hj
  simp [MFRC522_ToCard, hz]

theorem C3_witness :
    (MFRC522_ToCard chipZero Cmd.PCD_TRANSCEIVE [PICC_REQIDL]).status = Status.MI_ERR := by
  exact C3_timeout_never_ok chipZero Cmd.PCD_TRANSCEIVE [PICC_REQIDL]
    (fun k _ => ⟨by simp [chipZero], by simp [chipZero]⟩)

/-- C10: MFRC522_ToCard stores through its backLen out-parameter exactly on
the path where the command is PCD_TRANSCEIVE, the polling budget was not
exhausted, and no error-status bit of the 0x1B fault mask is set; on every
other path the caller's variable is left unwritten. -/
theorem C10_backLen_write_condition (chip : MFRC522_Chip) (command : Cmd) (s : List Nat) :
    (MFRC522_ToCard chip command s).backLen.isSome = true ↔
      (command = Cmd.PCD_TRANSCEIVE ∧
       (pollLoop chip.commIrq (waitIRq command) 0 2000).1 ≠ 0 ∧
       chip.errorReg &&& 0x1B = 0) :=
  backLen_isSome_aux chip command s

/-- C9: with the capacity-3 queue already holding three undrained records,
the acquisition cycle's zero-timeout enqueue leaves the three pending records
intact and in order and discards the new record, and the cycle's delivery
attempt reports rejection rather than blocking or retrying. -/
theorem C9_drop_on_full (chipR chipA : MFRC522_Chip) (g : Nat) (a b c : RC522_Data_t) :
    (RC522_Task_cycle chipR chipA ⟨RC522_QUEUE_SIZE, [a, b, c]⟩ g).queueAfter =
        ⟨RC522_QUEUE_SIZE, [a, b, c]⟩ ∧
    (RC522_Task_cycle chipR chipA ⟨RC522_QUEUE_SIZE, [a, b, c]⟩ g).putAccepted = false := by
  constructor <;> simp [RC522_Task_cycle, osMessageQueuePut, RC522_QUEUE_SIZE]

/-- C6: for every register address up to 0x3F, the write access puts the
address byte (a<<1)&0x7E followed by the value on the bus, the read access
puts ((a<<1)&0x7E)|0x80 followed by a 0x00 dummy byte, and these address
bytes are 2*a with bit 7 clear and 2*a+0x80 with bit 7 set respectively. -/
theorem C6_framing (a v : Nat) (ha : a ≤ 0x3F) :
    Write_MFRC522 a v = [(a <<< 1) &&& 0x7E, v] ∧
    Read_MFRC522 a = [((a <<< 1) &&& 0x7E) ||| 0x80, 0x00] ∧
    (a <<< 1) &&& 0x7E = 2 * a ∧
    ((a <<< 1) &&& 0x7E) ||| 0x80 = 2 * a + 0x80 := by
  refine ⟨rfl, rfl, ?_, ?_⟩
  · have h : ∀ b : Fin 64, ((b : Nat) <<< 1) &&& 0x7E = 2 * (b : Nat) := by decide
    exact h ⟨a, by omega⟩
  · have h : ∀ b : Fin 64, (((b : Nat) <<< 1) &&& 0x7E) ||| 0x80 = 2 * (b : Nat) + 0x80 := by
      decide
    exact h ⟨a, by omega⟩

theorem C6_witness :
    Write_MFRC522 0x25 0x3D = [2 * 0x25, 0x3D] ∧
    Read_MFRC522 0x25 = [2 * 0x25 + 0x80, 0x00] := by
  obtain ⟨h1, h2, h3, h4⟩ := C6_framing 0x25 0x3D (by decide)
  exact ⟨by rw [h1, h3], by rw [h2, h4]⟩

/-- C4 counterexample: for the Authenticate command kind, a cycle whose first
poll of CommIrqReg shows the timer-expiry bit (budget remaining, no
error-status bits) returns MI_OK, not the NoCardDetected code, because the
Authenticate interrupt-enable mask 0x12 has bit 0 clear. -/
theorem C4_counterexample :
    (pollLoop chipTimer.commIrq (waitIRq Cmd.PCD_AUTHENT) 0 2000).1 ≠ 0 ∧
    (pollLoop chipTimer.commIrq (waitIRq Cmd.PCD_AUTHENT) 0 2000).2 &&& 0x01 ≠ 0 ∧
    chipTimer.errorReg &&& 0x1B = 0 ∧
    (MFRC522_ToCard chipTimer Cmd.PCD_AUTHENT []).status = Status.MI_OK ∧
    (MFRC522_ToCard chipTimer Cmd.PCD_AUTHENT []).status ≠ Status.MI_NOTAGERR := by
  refine ⟨by decide, by decide, by decide, by decide, by decide⟩

/-- C4 (amended): for Transceive-class commands, when the polling loop exits
with budget remaining on a poll byte whose timer-expiry bit is set and no
error-status bit of the 0x1B mask is set, MFRC522_ToCard returns
MI_NOTAGERR; the Authenticate-class and default command kinds instead return
MI_OK there because their interrupt-enable masks (0x12, 0x00) have bit 0
clear. -/
theorem C4_amended (chip : MFRC522_Chip) (s : List Nat)
    (hp : (pollLoop chip.commIrq (waitIRq Cmd.PCD_TRANSCEIVE) 0 2000).1 ≠ 0)
    (ht : (pollLoop chip.commIrq (waitIRq Cmd.PCD_TRANSCEIVE) 0 2000).2 &&& 0x01 ≠ 0)
    (he : chip.errorReg &&& 0x1B = 0) :
    (MFRC522_ToCard chip Cmd.PCD_TRANSCEIVE s).status = Status.MI_NOTAGERR := by
  simp only [MFRC522_ToCard, apply_ite ToCardResult.status]
  rw [if_pos hp, if_pos he, if_pos trivial,
    show irqEn Cmd.PCD_TRANSCEIVE = 0x77 from rfl, land_hex77_one, if_pos ht]

theorem C4_amended_witness :
    (MFRC522_ToCard chipTimer Cmd.PCD_TRANSCEIVE []).status = Status.MI_NOTAGERR :=
  C4_amended chipTimer [] (by decide) (by decide) (by decide)

/-- C1 counterexample: a cycle whose request step does not return MI_OK
nevertheless invokes the anticollision operation — the call at
rc522_rtos_task.c line 110 is unconditional. -/
theorem C1_counterexample :
    (MFRC522_Request chipTimer PICC_REQIDL 0 0).status ≠ Status.MI_OK ∧
    (RC522_Task_cycle chipTimer chipTimer ⟨RC522_QUEUE_SIZE, []⟩ 0).anticollInvoked = true := by
  exact ⟨by decide, rfl⟩

/-- C1 (amended): in every acquisition cycle whose request step does not
return MI_OK, the published record is finalized as not-detected with
uid_length 0, but the anticollision operation is still invoked — the task
calls it unconditionally every cycle, and its outcome merely cannot upgrade
the record to detected. -/
theorem C1_amended (chipReq chipAnti : MFRC522_Chip) (q : Channel) (g : Nat)
    (hreq : (MFRC522_Request chipReq PICC_REQIDL g 0).status ≠ Status.MI_OK) :
    (RC522_Task_cycle chipReq chipAnti q g).rc522_data.status = RC522_STATUS_UNSUCCESSFUL ∧
    (RC522_Task_cycle chipReq chipAnti q g).rc522_data.uid_length = 0 ∧
    (RC522_Task_cycle chipReq chipAnti q g).anticollInvoked = true := by
  refine ⟨?_, ?_, rfl⟩ <;> simp [RC522_Task_cycle, hreq]

theorem C1_amended_witness :
    (RC522_Task_cycle chipTimer chipTimer ⟨RC522_QUEUE_SIZE, []⟩ 0).rc522_data.status =
        RC522_STATUS_UNSUCCESSFUL ∧
    (RC522_Task_cycle chipTimer chipTimer ⟨RC522_QUEUE_SIZE, []⟩ 0).rc522_data.uid_length = 0 ∧
    (RC522_Task_cycle chipTimer chipTimer ⟨RC522_QUEUE_SIZE, []⟩ 0).anticollInvoked = true :=
  C1_amended chipTimer chipTimer ⟨RC522_QUEUE_SIZE, []⟩ 0 (by decide)

/-- C2: in every acquisition cycle the published record has the successful
status exactly when both the request and the anticollision outcome are MI_OK,
in which case uid_length is 4; every other combination publishes the
unsuccessful status with uid_length 0; hence uid_length is 0 or 4, and the
channel after the cycle holds at most its previous records plus this one in
order. -/
theorem C2_record_iff (chipReq chipAnti : MFRC522_Chip) (q : Channel) (g : Nat) :
    (RC522_Task_cycle chipReq chipAnti q g).rc522_data.status =
      (if (MFRC522_Request chipReq PICC_REQIDL g 0).status = Status.MI_OK ∧
          (MFRC522_Anticoll chipAnti 0 0 0).status = Status.MI_OK
       then RC522_STATUS_SUCCESS else RC522_STATUS_UNSUCCESSFUL) ∧
    (RC522_Task_cycle chipReq chipAnti q g).rc522_data.uid_length =
      (if (MFRC522_Request chipReq PICC_REQIDL g 0).status = Status.MI_OK ∧
          (MFRC522_Anticoll chipAnti 0 0 0).status = Status.MI_OK
       then 4 else 0) ∧
    ((RC522_Task_cycle chipReq chipAnti q g).rc522_data.uid_length = 0 ∨
     (RC522_Task_cycle chipReq chipAnti q g).rc522_data.uid_length = 4) ∧
    ((RC522_Task_cycle chipReq chipAnti q g).queueAfter.slots = q.slots ∨
     (RC522_Task_cycle chipReq chipAnti q g).queueAfter.slots =
       q.slots ++ [(RC522_Task_cycle chipReq chipAnti q g).rc522_data]) := by
  by_cases hr : (MFRC522_Request chipReq PICC_REQIDL g 0).status = Status.MI_OK <;>
    by_cases ha : (MFRC522_Anticoll chipAnti 0 0 0).status = Status.MI_OK <;>
    by_cases hq : q.slots.length < q.capacity <;>
    simp [RC522_Task_cycle, osMessageQueuePut, hr, ha, hq]

/-- C7 counterexample: a Transceive exchange whose chip reports 16 FIFO
bytes drains 16 bytes — the clamp ceiling is the fixed constant MAX_LEN —
whereas clamping to the caller's buffer capacity would drain 2 bytes for the
2-byte TagType buffer that MFRC522_Request passes (rc522_rtos_task.c line
101). -/
theorem C7_counterexample :
    chipFull.fifoLevel = 16 ∧
    (MFRC522_ToCard chipFull Cmd.PCD_TRANSCEIVE [PICC_REQIDL]).backData.length = 16 ∧
    drainCount_specSide 2 chipFull.fifoLevel = 2 ∧
    (MFRC522_ToCard chipFull Cmd.PCD_TRANSCEIVE [PICC_REQIDL]).backData.length ≠
      drainCount_specSide 2 chipFull.fifoLevel := by
  refine ⟨rfl, by decide, rfl, by decide⟩

/-- C7 (amended): for a Transceive-class exchange that completes with budget
remaining and no error-status bits, the reported bit count is
(n-1)*8+lastBits when lastBits is nonzero and n*8 otherwise (stated for
byte-register values 1 ≤ n < 256), and the drain into the caller's buffer is
exactly n clamped to at least 1 and at most the fixed driver constant
MAX_LEN = 16, independent of the caller's buffer capacity. -/
theorem C7_amended (chip : MFRC522_Chip) (s : List Nat)
    (hp : (pollLoop chip.commIrq (waitIRq Cmd.PCD_TRANSCEIVE) 0 2000).1 ≠ 0)
    (he : chip.errorReg &&& 0x1B = 0) :
    (1 ≤ chip.fifoLevel → chip.fifoLevel < 256 →
      (MFRC522_ToCard chip Cmd.PCD_TRANSCEIVE s).backLen =
        some (if chip.controlReg &&& 0x07 ≠ 0
              then (chip.fifoLevel - 1) * 8 + (chip.controlReg &&& 0x07)
              else chip.fifoLevel * 8)) ∧
    (MFRC522_ToCard chip Cmd.PCD_TRANSCEIVE s).backData =
      (List.range (min (max chip.fifoLevel 1) MAX_LEN)).map chip.fifoData := by
  have hlb : chip.controlReg &&& 0x07 ≤ 7 := Nat.and_le_right
  simp only [MFRC522_ToCard]
  rw [if_pos hp, if_pos he, if_pos trivial]
  dsimp only
  constructor
  · intro h1 h256
    by_cases hz : chip.controlReg &&& 0x07 ≠ 0
    · rw [if_pos hz, if_pos hz]
      congr 1
      generalize chip.controlReg &&& 0x07 = lb at hlb hz
      generalize chip.fifoLevel = fn at h1 h256
      omega
    · rw [if_neg hz, if_neg hz]
  · congr 1
    simp only [MAX_LEN]
    by_cases h0 : chip.fifoLevel = 0
    · simp [h0]
    · rw [if_neg h0, Nat.max_eq_left (show 1 ≤ chip.fifoLevel by omega)]
      by_cases h16 : 16 < chip.fifoLevel
      · rw [if_pos h16, Nat.min_eq_right (show 16 ≤ chip.fifoLevel by omega)]
      · rw [if_neg h16, Nat.min_eq_left (show chip.fifoLevel ≤ 16 by omega)]

theorem C7_amended_witness :
    (MFRC522_ToCard chipFull Cmd.PCD_TRANSCEIVE [PICC_REQIDL]).backLen = some 128 ∧
    (MFRC522_ToCard chipFull Cmd.PCD_TRANSCEIVE [PICC_REQIDL]).backData =
      (List.range 16).map chipFull.fifoData := by
  obtain ⟨h1, h2⟩ := C7_amended chipFull [PICC_REQIDL] (by decide) (by decide)
  refine ⟨?_, ?_⟩
  · rw [h1 (by decide) (by decide)]
    decide
  · rw [h2]
    decide

/-- C8: the request operation writes the 7-bit framing value 0x07 to
BitFramingReg, hands exactly the single mode byte to the exchange as its FIFO
payload, and its status is MI_OK exactly when the exchange returned MI_OK and
the received bit count it stored is exactly 0x10, and MI_ERR on every other
combination — any deviation forces the error code, never the no-card code. -/
theorem C8_request_iff (chip : MFRC522_Chip) (reqMode g t1 : Nat) :
    (MFRC522_Request chip reqMode g t1).bitFraming = 0x07 ∧
    (MFRC522_ToCard chip Cmd.PCD_TRANSCEIVE [reqMode]).fifoWritten = [reqMode] ∧
    (MFRC522_Request chip reqMode g t1).status =
      (if (MFRC522_ToCard chip Cmd.PCD_TRANSCEIVE [reqMode]).status = Status.MI_OK ∧
          (MFRC522_ToCard chip Cmd.PCD_TRANSCEIVE [reqMode]).backLen = some 0x10
       then Status.MI_OK else Status.MI_ERR) := by
  refine ⟨rfl, toCard_fifoWritten chip Cmd.PCD_TRANSCEIVE [reqMode], ?_⟩
  show (if (MFRC522_ToCard chip Cmd.PCD_TRANSCEIVE [reqMode]).status ≠ Status.MI_OK ∨
        (MFRC522_ToCard chip Cmd.PCD_TRANSCEIVE [reqMode]).backLen.getD g ≠ 0x10
      then Status.MI_ERR
      else (MFRC522_ToCard chip Cmd.PCD_TRANSCEIVE [reqMode]).status) = _
  by_cases hs : (MFRC522_ToCard chip Cmd.PCD_TRANSCEIVE [reqMode]).status = Status.MI_OK
  · rcases toCard_transceive_err_or_some chip [reqMode] with herr | hsome
    · rw [hs] at herr
      exact absurd herr (by decide)
    · obtain ⟨b, hbv⟩ := Option.isSome_iff_exists.mp hsome
      by_cases hb : b = 0x10
      · subst hb
        rw [if_neg (by push_neg; exact ⟨hs, by rw [hbv, Option.getD_some]⟩),
          if_pos ⟨hs, hbv⟩]
        exact hs
      · rw [if_pos (Or.inr (by rw [hbv, Option.getD_some]; exact hb)),
          if_neg (fun hc => hb (Option.some_inj.mp (hbv.symm.trans hc.2)))]
  · rw [if_pos (Or.inl hs), if_neg (fun hc => hs hc.1)]
